import Mathlib

/-!
Verification development for the integrated auto-responder of the
Tmux-Orchestrator repository.

The definitions below are a shallow embedding of the Python sources
src/integrated_auto_responder.py and src/permission_presets.py.

Modelling conventions:
* The Python regular-expression engine (re.search) is an external library;
  classification is parameterised over a record ReEngine holding the two
  entry points the code uses: re.search with IGNORECASE, and re.search with
  IGNORECASE|MULTILINE.  For concrete witnesses the engine is instantiated
  with reLit, a case-insensitive substring matcher, which coincides with
  re.search semantics on metacharacter-free (literal) patterns.
* tmux subprocess calls are external: each wrapper takes the call result as
  an Except value (error = subprocess.CalledProcessError raised under
  check=True, ok = captured stdout).
* Configuration dictionaries are modelled as structures whose fields are
  always present (the generated preset configs always carry every key; the
  Python .get defaults only matter for hand-edited files).
* Timestamps and print side effects are not modelled; timing constants are
  rationals.
-/

/-- Record of the two regular-expression entry points the source calls:
searchCI models re.search(pattern, text, re.IGNORECASE) and searchCIM models
re.search(pattern, text, re.IGNORECASE | re.MULTILINE), each returning
whether a match exists. -/
structure ReEngine where
  searchCI : String → String → Bool
  searchCIM : String → String → Bool

/-- Tests whether the character list t starts with the character list p. -/
def charsStartWith : List Char → List Char → Bool
  | _, [] => true
  | [], _ :: _ => false
  | a :: as, b :: bs => a == b && charsStartWith as bs

/-- Tests whether p occurs as a contiguous sublist of t. -/
def charsHaveSub : List Char → List Char → Bool
  | [], p => p.isEmpty
  | a :: as, p => charsStartWith (a :: as) p || charsHaveSub as p

/-- Case-insensitive substring test: the semantics of re.search under
IGNORECASE (with or without MULTILINE) for a pattern containing no regex
metacharacters. -/
def reLitSearch (pat text : String) : Bool :=
  charsHaveSub (text.toList.map Char.toLower) (pat.toList.map Char.toLower)

/-- Concrete regex engine used for witnesses, valid for literal patterns. -/
def reLit : ReEngine := { searchCI := reLitSearch, searchCIM := reLitSearch }

/-- Safety block of a configuration: the "safety_controls" dictionary
(permission_presets.py SAFETY_CONTROLS and its consumers in
integrated_auto_responder.py is_dangerous_operation). -/
structure SafetyControls where
  skip_dangerous_operations : Bool
  dangerous_patterns : List String
  require_manual_approval : List String
  deriving DecidableEq, Repr

/-- One category entry of the "granular_controls" dictionary as produced by
generate_preset_config: enabled flag, description, ordered pattern list and
the response string. -/
structure CategoryConfig where
  enabled : Bool
  description : String
  patterns : List String
  response : String
  deriving DecidableEq, Repr

/-- The "auto_responder" body of a configuration.  granular_controls is an
association list in dictionary insertion order (Python dicts preserve
insertion order, which is the iteration order of .items()). -/
structure AutoResponderConfig where
  enabled : Bool
  check_interval : Rat
  response_delay : Rat
  log_responses : Bool
  granular_controls : List (String × CategoryConfig)
  safety_controls : SafetyControls
  deriving DecidableEq, Repr

/-- One record of IntegratedAutoResponder.response_log as built by
log_response (the timestamp field is real time and is omitted). -/
structure LogEntry where
  session : String
  window : Int
  response : String
  status : String
  category : String
  description : String
  deriving DecidableEq, Repr

/-- Embedding of IntegratedAutoResponder.is_dangerous_operation
(integrated_auto_responder.py lines 149-169): when the
skip_dangerous_operations flag is unset the function returns False at once
(neither pattern list is scanned); otherwise it scans dangerous_patterns and
then require_manual_approval with re.search(..., IGNORECASE), returning True
on the first hit. -/
def is_dangerous_operation (re : ReEngine) (cfg : AutoResponderConfig)
    (content : String) : Bool :=
  if cfg.safety_controls.skip_dangerous_operations = false then false
  else if cfg.safety_controls.dangerous_patterns.any
      (fun p => re.searchCI p content) then true
  else if cfg.safety_controls.require_manual_approval.any
      (fun p => re.searchCI p content) then true
  else false

/-- The classification dictionary returned by
check_for_confirmation_prompt on a category match. -/
structure PromptInfo where
  response : String
  category : String
  description : String
  pattern_matched : String
  deriving DecidableEq, Repr

/-- Embedding of the category loop of check_for_confirmation_prompt
(integrated_auto_responder.py lines 185-202): iterate categories in
dictionary order, skip a category whose enabled flag is unset, and inside an
enabled category return on the first pattern for which
re.search(pattern, content, IGNORECASE|MULTILINE) matches. -/
def match_granular_controls (re : ReEngine) (content : String) :
    List (String × CategoryConfig) → Option PromptInfo
  | [] => none
  | nc :: rest =>
    if nc.2.enabled = false then match_granular_controls re content rest
    else
      match nc.2.patterns.find? (fun p => re.searchCIM p content) with
      | some pat =>
        some { response := nc.2.response
               category := nc.1
               description := nc.2.description
               pattern_matched := pat }
      | none => match_granular_controls re content rest

/-- Embedding of IntegratedAutoResponder.capture_window_content
(lines 139-147): the stdout of tmux capture-pane, or the empty string when
the subprocess raises CalledProcessError. -/
def capture_window_content (result : Except Unit String) : String :=
  match result with
  | .error _ => ""
  | .ok out => out

/-- Semantics of the Python str.strip() call on the captured stdout:
whitespace removed from both ends, written at character level. -/
def pyStrip (s : String) : String :=
  String.mk (((s.toList.dropWhile Char.isWhitespace).reverse.dropWhile
    Char.isWhitespace).reverse)

/-- Semantics of the Python split on a single newline character, written at
character level: the accumulated current item is closed at each newline. -/
def splitOnNlAux : List Char → List Char → List String
  | [], acc => [String.mk acc.reverse]
  | c :: cs, acc =>
    if c = '\n' then String.mk acc.reverse :: splitOnNlAux cs []
    else splitOnNlAux cs (c :: acc)

/-- Splits a string on newline characters. -/
def splitOnNl (s : String) : List String :=
  splitOnNlAux s.toList []

/-- Embedding of IntegratedAutoResponder.get_session_windows
(lines 130-137): on CalledProcessError return the empty list; otherwise
strip the stdout, split it on newlines, drop empty items and convert each to
int (a non-numeric item raises ValueError, modelled as an error value). -/
def get_session_windows (result : Except Unit String) :
    Except String (List Int) :=
  match result with
  | .error _ => .ok []
  | .ok out =>
    ((splitOnNl (pyStrip out)).filter (fun w => w ≠ "")).mapM
      (fun w => match w.toInt? with
        | some n => Except.ok n
        | none => Except.error "ValueError")

/-- Embedding of IntegratedAutoResponder.log_response (lines 229-246): when
the log_responses flag is set, append the entry to the in-memory
response_log list; no entry is ever removed. -/
def log_response (logEnabled : Bool) (log : List LogEntry) (e : LogEntry) :
    List LogEntry :=
  if logEnabled then log ++ [e] else log

/-- Embedding of IntegratedAutoResponder.check_for_confirmation_prompt
(lines 171-202), returning the classification together with the log entries
it appends: capture the window content (empty on a failed capture), return
None on empty content, log SKIPPED and return None when
is_dangerous_operation fires, otherwise run the category loop. -/
def check_for_confirmation_prompt (re : ReEngine) (cfg : AutoResponderConfig)
    (s : String) (w : Int) (captured : Except Unit String) :
    Option PromptInfo × List LogEntry :=
  let content := capture_window_content captured
  if content = "" then (none, [])
  else if is_dangerous_operation re cfg content then
    (none, log_response cfg.log_responses []
      { session := s
        window := w
        response := "SKIPPED"
        status := "Dangerous operation detected"
        category := ""
        description := "" })
  else (match_granular_controls re content cfg.granular_controls, [])

/-- Result of one send_response execution: the boolean the method returns,
the number of adapter (subprocess) send calls it performed, and the status
text it logs. -/
structure SendResult where
  res : Bool
  adapterCalls : Nat
  logStatus : String
  deriving DecidableEq, Repr

/-- Embedding of IntegratedAutoResponder.send_response (lines 204-227).  The
method consults no per-(session, window) guard state: if
send-claude-message.sh exists it is invoked once with check=True
(CalledProcessError is caught, logged and turned into False); otherwise two
direct tmux send-keys calls are made without check=True, so that path cannot
raise CalledProcessError and always returns True. -/
def send_response (scriptExists : Bool) (adapterOk : Bool) : SendResult :=
  if scriptExists then
    if adapterOk then
      { res := true
        adapterCalls := 1
        logStatus := "Success via send-claude-message.sh" }
    else { res := false, adapterCalls := 1, logStatus := "Error" }
  else
    { res := true, adapterCalls := 2, logStatus := "Success via direct tmux" }

/-- Because send_response reads and writes no shared per-window state, the
result of each of two overlapping send_response executions for the same
(session, window) is independent of the other execution and of the
interleaving; a pair of overlapping executions is therefore modelled by the
pair of their individual results. -/
def overlappingSends (a b : Bool × Bool) : SendResult × SendResult :=
  (send_response a.1 a.2, send_response b.1 b.2)

/-- Result of processing one window inside a monitor_session tick
(lines 260-268): the classification, the number of adapter send calls, and
the log entries appended. -/
structure WindowResult where
  prompt : Option PromptInfo
  sendCalls : Nat
  logs : List LogEntry
  deriving DecidableEq, Repr

/-- Embedding of the per-window body of monitor_session (lines 260-268):
classify via check_for_confirmation_prompt; on a match run send_response
(which logs its own outcome) and, on success, log an Auto-approved entry. -/
def process_window (re : ReEngine) (cfg : AutoResponderConfig) (s : String)
    (w : Int) (captured : Except Unit String)
    (scriptExists adapterOk : Bool) : WindowResult :=
  match check_for_confirmation_prompt re cfg s w captured with
  | (none, lg) => { prompt := none, sendCalls := 0, logs := lg }
  | (some info, lg) =>
    let sr := send_response scriptExists adapterOk
    let lgSend := log_response cfg.log_responses lg
      { session := s
        window := w
        response := info.response
        status := sr.logStatus
        category := ""
        description := "" }
    let lgAll :=
      if sr.res then
        log_response cfg.log_responses lgSend
          { session := s
            window := w
            response := info.response
            status := "Auto-approved"
            category := info.category
            description := info.description }
      else lgSend
    { prompt := some info, sendCalls := sr.adapterCalls, logs := lgAll }

/-- One entry of the GRANULAR_CONTROLS table of permission_presets.py:
description, pattern list, response, and the list of preset names in which
the category is enabled. -/
structure GranularControlDef where
  description : String
  patterns : List String
  response : String
  enabled_in : List String
  deriving DecidableEq, Repr

/-- Embedding of the GRANULAR_CONTROLS table (permission_presets.py lines
13-88), in dictionary insertion order. -/
def GRANULAR_CONTROLS : List (String × GranularControlDef) :=
  [("file_operations",
    { description := "File creation, editing, saving"
      patterns := ["Apply these changes\\?", "Save file\\?", "Create file\\?",
        "Overwrite file\\?", "Write to file\\?"]
      response := "1"
      enabled_in := ["pm_orchestrator", "safe_development", "autonomous_agent"] }),
   ("command_execution",
    { description := "Shell commands and script execution"
      patterns := ["Execute this command\\?", "Run this script\\?",
        "Execute in terminal\\?", "Run command\\?"]
      response := "1"
      enabled_in := ["autonomous_agent"] }),
   ("general_confirmations",
    { description := "General yes/no confirmations"
      patterns := ["1\\. yes\\s*2\\. no", "Confirm\\?\\s*\\(yes/no\\)",
        "Continue\\?\\s*\\(y/n\\)", "Proceed\\?\\s*\\(yes/no\\)"]
      response := "1"
      enabled_in := ["pm_orchestrator", "safe_development", "conservative",
        "autonomous_agent"] }),
   ("persistent_choices",
    { description := "Yes and don\x27t ask again options"
      patterns := ["1\\. yes\\s*2\\. yes and don\x27t ask again\\s*3\\. no"]
      response := "2"
      enabled_in := ["autonomous_agent"] }),
   ("continue_operations",
    { description := "Continue with current operation"
      patterns := ["Do you want to continue\\?", "Do you want to proceed\\?",
        "Continue with this action\\?"]
      response := "1"
      enabled_in := ["pm_orchestrator", "safe_development", "autonomous_agent"] }),
   ("package_management",
    { description := "Package installations and updates"
      patterns := ["Install package\\?", "Update dependencies\\?",
        "Add to package\\.json\\?", "Install npm package\\?"]
      response := "1"
      enabled_in := ["autonomous_agent"] }),
   ("git_operations",
    { description := "Git commits, pushes, and repository operations"
      patterns := ["Commit changes\\?", "Push to repository\\?",
        "Create branch\\?", "Merge branch\\?"]
      response := "1"
      enabled_in := [] })]

/-- Embedding of the SAFETY_CONTROLS table (permission_presets.py lines
91-100). -/
def SAFETY_CONTROLS : SafetyControls :=
  { skip_dangerous_operations := true
    dangerous_patterns := ["delete", "remove", "rm -rf", "DROP TABLE",
      "DELETE FROM", "truncate", "format", "destroy", "purge"]
    require_manual_approval := ["production", "prod", "live", "master",
      "main branch"] }

/-- Timing fields of one PRESET_INFO entry (permission_presets.py lines
103-132); generate_preset_config reads only check_interval and
response_delay from the entry, so the descriptive strings are not carried in
the embedding. -/
structure PresetInfo where
  check_interval : Rat
  response_delay : Rat
  deriving DecidableEq, Repr

/-- Embedding of the PRESET_INFO table, in dictionary insertion order. -/
def PRESET_INFO : List (String × PresetInfo) :=
  [("pm_orchestrator", { check_interval := 2, response_delay := 1/2 }),
   ("safe_development", { check_interval := 2, response_delay := 1/2 }),
   ("conservative", { check_interval := 3, response_delay := 1 }),
   ("autonomous_agent", { check_interval := 3/2, response_delay := 3/10 })]

/-- Embedding of generate_preset_config (permission_presets.py lines
134-161): raise ValueError for a name outside PRESET_INFO, otherwise build
an auto_responder config with enabled=True, the preset's timing constants,
log_responses=True, a granular_controls dictionary whose per-category
enabled flag is the membership test preset_name in enabled_in, and the
shared SAFETY_CONTROLS block. -/
def generate_preset_config (preset_name : String) :
    Except String AutoResponderConfig :=
  match List.lookup preset_name PRESET_INFO with
  | none => .error "ValueError: Unknown preset"
  | some info =>
    .ok { enabled := true
          check_interval := info.check_interval
          response_delay := info.response_delay
          log_responses := true
          granular_controls := GRANULAR_CONTROLS.map (fun nc =>
            (nc.1,
             { enabled := nc.2.enabled_in.contains preset_name
               description := nc.2.description
               patterns := nc.2.patterns
               response := nc.2.response }))
          safety_controls := SAFETY_CONTROLS }

/-- Keys of the PRESETS registry (permission_presets.py lines 181-186). -/
def PRESETS_keys : List String :=
  ["safe_development", "autonomous_agent", "conservative", "pm_orchestrator"]

/-- Embedding of get_preset (permission_presets.py lines 188-193): a name in
the PRESETS registry dispatches to the matching legacy function, each of
which just calls generate_preset_config with that same name; any other name
goes to generate_preset_config directly (raising ValueError if unknown). -/
def get_preset (name : String) : Except String AutoResponderConfig :=
  if PRESETS_keys.contains name then generate_preset_config name
  else generate_preset_config name

/-- Embedding of enable_category (integrated_auto_responder.py lines
293-307) acting on the granular_controls dictionary: when the category key
exists, its enabled field is set to True in place in the live configuration
(the same dictionary the monitor reads) and True is returned; otherwise the
configuration is unchanged and False is returned.  The save_config file
write is an external side effect and is not modelled. -/
def enable_category (cfg : AutoResponderConfig) (cat : String) :
    AutoResponderConfig × Bool :=
  if (List.lookup cat cfg.granular_controls).isSome then
    ({ cfg with granular_controls := cfg.granular_controls.map (fun nc =>
        if nc.1 = cat then (nc.1, { nc.2 with enabled := true }) else nc) },
     true)
  else (cfg, false)

/-- Models one tick of monitor_session in which an external enable_category
call lands between the first and the second window of the same tick.  This
interleaving is possible in the source because check_for_confirmation_prompt
re-reads the shared self.config dictionary for every window (line 183) and
enable_category mutates that same dictionary in place (line 301).  Returns
the two windows' classifications. -/
def tick_with_concurrent_enable (re : ReEngine) (cfg : AutoResponderConfig)
    (cat : String) (s : String) (c1 c2 : Except Unit String) :
    Option PromptInfo × Option PromptInfo :=
  ((check_for_confirmation_prompt re cfg s 1 c1).1,
   (check_for_confirmation_prompt re (enable_category cfg cat).1 s 2 c2).1)

/-- Folds log_response over a list of entries: the response_log after a
sequence of logged events. -/
def append_all (logEnabled : Bool) (log : List LogEntry)
    (es : List LogEntry) : List LogEntry :=
  es.foldl (log_response logEnabled) log

/-- Embedding of the recent_responses field of get_status (line 344): the
Python slice response_log[-10:], i.e. the last (at most) ten records of the
unbounded in-memory log. -/
def recent_responses (log : List LogEntry) : List LogEntry :=
  log.drop (log.length - 10)

/-- Tests whether an Except value carries a success. -/
def exceptIsOk {e a : Type} : Except e a → Bool
  | .ok _ => true
  | .error _ => false

/-- Embedding of the body of one monitor_session tick (lines 253-269): the
per-window processing (abstracted as step, which may raise) runs over the
enumerated windows in order; because the try block wraps the whole for loop,
the first exception aborts the remaining windows of the tick and lands in
the except handler.  Returns the windows processed before any exception and
the exception, if one occurred. -/
def monitor_tick (step : Int → Except String Unit) :
    List Int → List Int × Option String
  | [] => ([], none)
  | w :: ws =>
    match step w with
    | .ok _ =>
      let r := monitor_tick step ws
      (w :: r.1, r.2)
    | .error msg => ([], some msg)

/-- Embedding of the monitor_session while loop (lines 252-274), fuel-
indexed by the number of ticks observed: every exception escaping a tick is
caught by the except handler, which logs and sleeps, so the loop always
proceeds to the next tick.  Returns the per-tick results, most recent
first. -/
def monitor_loop (step : Nat → Int → Except String Unit)
    (windows : Nat → List Int) : Nat → List (List Int × Option String)
  | 0 => []
  | n + 1 => monitor_tick (step n) (windows n) :: monitor_loop step windows n

/-- Helper: when classification yields no prompt, the per-window body makes
no adapter send call. -/
theorem process_window_sendCalls_of_none (re : ReEngine)
    (cfg : AutoResponderConfig) (s : String) (w : Int)
    (captured : Except Unit String) (scriptExists adapterOk : Bool)
    (h : (check_for_confirmation_prompt re cfg s w captured).1 = none) :
    (process_window re cfg s w captured scriptExists adapterOk).sendCalls = 0 := by
  unfold process_window
  rcases hc : check_for_confirmation_prompt re cfg s w captured with ⟨pi, lg⟩
  rw [hc] at h
  simp only at h
  subst h
  simp

/-- Helper: a hit on the dangerous pattern list makes
is_dangerous_operation return True whenever the skip flag is set. -/
theorem is_dangerous_of_dangerous_hit (re : ReEngine)
    (cfg : AutoResponderConfig) (content : String)
    (hflag : cfg.safety_controls.skip_dangerous_operations = true)
    (hdang : ∃ p ∈ cfg.safety_controls.dangerous_patterns,
      re.searchCI p content = true) :
    is_dangerous_operation re cfg content = true := by
  have hany : cfg.safety_controls.dangerous_patterns.any
      (fun p => re.searchCI p content) = true := by
    rcases hdang with ⟨p, hp, hm⟩
    exact List.any_eq_true.mpr ⟨p, hp, hm⟩
  unfold is_dangerous_operation
  simp [hflag, hany]

/-- Helper: when is_dangerous_operation fires, classification returns no
prompt (whether or not the capture is empty). -/
theorem check_none_of_dangerous (re : ReEngine) (cfg : AutoResponderConfig)
    (s : String) (w : Int) (content : String)
    (hd : is_dangerous_operation re cfg content = true) :
    (check_for_confirmation_prompt re cfg s w (Except.ok content)).1 = none := by
  unfold check_for_confirmation_prompt capture_window_content
  by_cases hc : content = "" <;> simp [hc, hd]

/-- Claim C1: with skip_dangerous_operations set, a capture hitting one of
the dangerous patterns (case-insensitively) is never classified as a
Respond — check_for_confirmation_prompt returns None before the category
loop runs, whatever the granular_controls contain — and the per-window body
therefore performs no adapter send for that capture. -/
theorem dangerous_hit_never_responds (re : ReEngine)
    (cfg : AutoResponderConfig) (content : String) (s : String) (w : Int)
    (scriptExists adapterOk : Bool)
    (hflag : cfg.safety_controls.skip_dangerous_operations = true)
    (hdang : ∃ p ∈ cfg.safety_controls.dangerous_patterns,
      re.searchCI p content = true) :
    (check_for_confirmation_prompt re cfg s w (Except.ok content)).1 = none ∧
    (process_window re cfg s w (Except.ok content)
      scriptExists adapterOk).sendCalls = 0 := by
  have hd := is_dangerous_of_dangerous_hit re cfg content hflag hdang
  have hchk := check_none_of_dangerous re cfg s w content hd
  exact ⟨hchk, process_window_sendCalls_of_none re cfg s w (Except.ok content)
    scriptExists adapterOk hchk⟩

/-- Configuration used in witnesses: dangerous scanning on with pattern
"delete", and an enabled category whose literal pattern "1. yes" also
matches the witness capture. -/
def wcfgDanger : AutoResponderConfig :=
  { enabled := true
    check_interval := 2
    response_delay := 1/2
    log_responses := true
    granular_controls := [("general_confirmations",
      { enabled := true
        description := "General yes/no confirmations"
        patterns := ["1. yes"]
        response := "1" })]
    safety_controls :=
      { skip_dangerous_operations := true
        dangerous_patterns := ["delete"]
        require_manual_approval := [] } }

/-- Witness for claim C1 at a concrete capture that hits both the dangerous
pattern and the enabled category pattern. -/
theorem dangerous_hit_never_responds_witness :
    (wcfgDanger.safety_controls.skip_dangerous_operations = true ∧
     ∃ p ∈ wcfgDanger.safety_controls.dangerous_patterns,
       reLit.searchCI p "Delete everything? 1. yes 2. no" = true) ∧
    (check_for_confirmation_prompt reLit wcfgDanger "dev" 0
      (Except.ok "Delete everything? 1. yes 2. no")).1 = none ∧
    (process_window reLit wcfgDanger "dev" 0
      (Except.ok "Delete everything? 1. yes 2. no") true true).sendCalls = 0 :=
  ⟨⟨rfl, ⟨"delete", by decide, by decide⟩⟩,
   dangerous_hit_never_responds reLit wcfgDanger
     "Delete everything? 1. yes 2. no" "dev" 0 true true rfl
     ⟨"delete", by decide, by decide⟩⟩

/-- Counterexample to claim C2: send_response consults no per-window guard
state, so each of two overlapping respond executions for the same
(session, window) performs its own adapter send (one call each here) and
both finish Sent; no execution makes zero adapter calls, contradicting the
claimed in-flight skip in which exactly one execution sends and the other
returns a skipped outcome without any adapter call.  (No value of
send_response can represent a skipped outcome: the method returns only the
Sent/Failed boolean.) -/
theorem overlapping_sends_both_call_adapter_cx :
    (overlappingSends (true, true) (true, true)).1.adapterCalls = 1 ∧
    (overlappingSends (true, true) (true, true)).2.adapterCalls = 1 ∧
    (overlappingSends (true, true) (true, true)).1.res = true ∧
    (overlappingSends (true, true) (true, true)).2.res = true ∧
    ¬((overlappingSends (true, true) (true, true)).1.adapterCalls = 0 ∨
      (overlappingSends (true, true) (true, true)).2.adapterCalls = 0) := by
  decide

/-- Claim C2 as amended: every send_response execution performs at least one
adapter call (one when send-claude-message.sh exists, two direct tmux calls
otherwise) and returns the Sent/Failed boolean (the fallback path runs
without check=True and therefore always reports success); there is no
in-flight guard, so no execution is ever skipped. -/
theorem send_response_always_calls_adapter (scriptExists adapterOk : Bool) :
    1 ≤ (send_response scriptExists adapterOk).adapterCalls ∧
    (send_response scriptExists adapterOk).adapterCalls
      = (if scriptExists then 1 else 2) ∧
    (send_response scriptExists adapterOk).res
      = (if scriptExists then adapterOk else true) := by
  cases scriptExists <;> cases adapterOk <;> decide

/-- Specification-side characterization of the category loop, written from
the spec sentences on first-match-wins: the result is determined by the
first category, in declaration order, that is enabled and has at least one
matching pattern; the matched pattern is that category's first matching
pattern. -/
def first_match_spec (re : ReEngine) (content : String)
    (cats : List (String × CategoryConfig)) : Option PromptInfo :=
  (cats.find? (fun nc =>
      nc.2.enabled && nc.2.patterns.any (fun p => re.searchCIM p content))).map
    (fun nc =>
      { response := nc.2.response
        category := nc.1
        description := nc.2.description
        pattern_matched :=
          (nc.2.patterns.find? (fun p => re.searchCIM p content)).getD "" })

/-- Helper: the source category loop agrees with the first-match
characterization. -/
theorem match_granular_controls_eq_spec (re : ReEngine) (content : String)
    (cats : List (String × CategoryConfig)) :
    match_granular_controls re content cats
      = first_match_spec re content cats := by
  induction cats with
  | nil => rfl
  | cons nc rest ih =>
    by_cases he : nc.2.enabled = true
    · rcases hf : nc.2.patterns.find? (fun p => re.searchCIM p content)
        with _ | pat
      · have hany : nc.2.patterns.any (fun p => re.searchCIM p content)
            = false := by
          rw [List.any_eq_false]
          intro p hp
          simpa using List.find?_eq_none.mp hf p hp
        have hL : match_granular_controls re content (nc :: rest)
            = match_granular_controls re content rest := by
          simp [match_granular_controls, he, hf]
        have hR : first_match_spec re content (nc :: rest)
            = first_match_spec re content rest := by
          unfold first_match_spec
          rw [List.find?_cons_of_neg]
          simp [hany]
        rw [hL, hR, ih]
      · have hmatch := List.find?_some hf
        have hany : nc.2.patterns.any (fun p => re.searchCIM p content)
            = true :=
          List.any_eq_true.mpr ⟨pat, List.mem_of_find?_eq_some hf, hmatch⟩
        have hL : match_granular_controls re content (nc :: rest)
            = some { response := nc.2.response
                     category := nc.1
                     description := nc.2.description
                     pattern_matched := pat } := by
          simp [match_granular_controls, he, hf]
        have hR : first_match_spec re content (nc :: rest)
            = some { response := nc.2.response
                     category := nc.1
                     description := nc.2.description
                     pattern_matched := pat } := by
          unfold first_match_spec
          rw [List.find?_cons_of_pos]
          · simp [hf]
          · simp [he, hany]
        rw [hL, hR]
    · have he' : nc.2.enabled = false := by
        simpa using he
      have hL : match_granular_controls re content (nc :: rest)
          = match_granular_controls re content rest := by
        simp [match_granular_controls, he']
      have hR : first_match_spec re content (nc :: rest)
          = first_match_spec re content rest := by
        unfold first_match_spec
        rw [List.find?_cons_of_neg]
        simp [he']
      rw [hL, hR, ih]

/-- Claim C3: on a capture with no safety hit, classification is the
first-match scan over the categories in declaration order — disabled
categories are skipped, the first enabled category with a matching pattern
determines the returned response, category and matched pattern — and a
prompt is never returned for a disabled category. -/
theorem classify_first_enabled_match (re : ReEngine)
    (cfg : AutoResponderConfig) (s : String) (w : Int) (content : String)
    (hne : content ≠ "")
    (hsafe : is_dangerous_operation re cfg content = false) :
    (check_for_confirmation_prompt re cfg s w (Except.ok content)).1
      = first_match_spec re content cfg.granular_controls ∧
    ∀ info,
      (check_for_confirmation_prompt re cfg s w (Except.ok content)).1
          = some info →
      ∃ cc, (info.category, cc) ∈ cfg.granular_controls ∧ cc.enabled = true ∧
        cc.response = info.response ∧
        cc.patterns.any (fun p => re.searchCIM p content) = true := by
  have hchk : (check_for_confirmation_prompt re cfg s w (Except.ok content)).1
      = match_granular_controls re content cfg.granular_controls := by
    unfold check_for_confirmation_prompt capture_window_content
    simp [hne, hsafe]
  constructor
  · rw [hchk, match_granular_controls_eq_spec]
  · intro info hinfo
    rw [hchk, match_granular_controls_eq_spec] at hinfo
    unfold first_match_spec at hinfo
    rcases hfind : cfg.granular_controls.find? (fun nc =>
        nc.2.enabled && nc.2.patterns.any (fun p => re.searchCIM p content))
      with _ | nc
    · rw [hfind] at hinfo
      simp at hinfo
    · rw [hfind] at hinfo
      simp at hinfo
      have hpred := List.find?_some hfind
      have hmem := List.mem_of_find?_eq_some hfind
      simp only [Bool.and_eq_true] at hpred
      refine ⟨nc.2, ?_, hpred.1, ?_, hpred.2⟩
      · have : info.category = nc.1 := by
          rw [← hinfo]
        rw [this]
        exact hmem
      · rw [← hinfo]

/-- Configuration used in witnesses for category ordering: a disabled first
category and two enabled categories whose patterns both match the witness
capture. -/
def wcfgOrder : AutoResponderConfig :=
  { enabled := true
    check_interval := 2
    response_delay := 1/2
    log_responses := true
    granular_controls :=
      [("file_operations",
        { enabled := false
          description := "File creation, editing, saving"
          patterns := ["proceed"]
          response := "9" }),
       ("general_confirmations",
        { enabled := true
          description := "General yes/no confirmations"
          patterns := ["zzz", "proceed"]
          response := "1" }),
       ("continue_operations",
        { enabled := true
          description := "Continue with current operation"
          patterns := ["proceed"]
          response := "2" })]
    safety_controls :=
      { skip_dangerous_operations := true
        dangerous_patterns := []
        require_manual_approval := [] } }

/-- Witness for claim C3: the disabled first category is skipped even though
its pattern matches, and of the two enabled matching categories the earlier
one wins. -/
theorem classify_first_enabled_match_witness :
    ("Proceed with the plan" ≠ "" ∧
     is_dangerous_operation reLit wcfgOrder "Proceed with the plan" = false) ∧
    ((check_for_confirmation_prompt reLit wcfgOrder "dev" 0
        (Except.ok "Proceed with the plan")).1
      = first_match_spec reLit "Proceed with the plan"
          wcfgOrder.granular_controls ∧
     ∀ info,
       (check_for_confirmation_prompt reLit wcfgOrder "dev" 0
           (Except.ok "Proceed with the plan")).1 = some info →
       ∃ cc, (info.category, cc) ∈ wcfgOrder.granular_controls ∧
         cc.enabled = true ∧ cc.response = info.response ∧
         cc.patterns.any (fun p => reLit.searchCIM p "Proceed with the plan")
           = true) :=
  ⟨⟨by decide, by decide⟩,
   classify_first_enabled_match reLit wcfgOrder "dev" 0 "Proceed with the plan"
     (by decide) (by decide)⟩

/-- Configuration with the skip_dangerous_operations flag unset and a
manual-approval pattern, plus an enabled category. -/
def wcfgNoSkip : AutoResponderConfig :=
  { enabled := true
    check_interval := 2
    response_delay := 1/2
    log_responses := true
    granular_controls := [("general_confirmations",
      { enabled := true
        description := "General yes/no confirmations"
        patterns := ["proceed"]
        response := "1" })]
    safety_controls :=
      { skip_dangerous_operations := false
        dangerous_patterns := ["delete"]
        require_manual_approval := ["production"] } }

/-- Counterexample to claim C4: the manual-approval scan is not performed
regardless of the flag — is_dangerous_operation returns False as soon as
skip_dangerous_operations is unset, before scanning require_manual_approval,
so a capture hitting the manual-approval pattern "production" is still
classified as a Respond by the category loop instead of being suppressed. -/
theorem manual_approval_scan_skipped_cx :
    reLit.searchCI "production" "Deploy to production, proceed" = true ∧
    "production" ∈ wcfgNoSkip.safety_controls.require_manual_approval ∧
    wcfgNoSkip.safety_controls.skip_dangerous_operations = false ∧
    is_dangerous_operation reLit wcfgNoSkip "Deploy to production, proceed"
      = false ∧
    (check_for_confirmation_prompt reLit wcfgNoSkip "dev" 0
        (Except.ok "Deploy to production, proceed")).1
      = some { response := "1"
               category := "general_confirmations"
               description := "General yes/no confirmations"
               pattern_matched := "proceed" } := by
  decide

/-- Claim C4 as amended: a manual-approval hit suppresses auto-response
before category matching only when skip_dangerous_operations is set; the
manual-approval scan, exactly like the dangerous scan, is conditioned on
that flag, and with the flag unset neither safety list is scanned. -/
theorem manual_approval_gated_by_flag (re : ReEngine)
    (cfg : AutoResponderConfig) (content : String) (s : String) (w : Int) :
    (cfg.safety_controls.skip_dangerous_operations = false →
      is_dangerous_operation re cfg content = false) ∧
    (cfg.safety_controls.skip_dangerous_operations = true →
      (∃ p ∈ cfg.safety_controls.require_manual_approval,
        re.searchCI p content = true) →
      is_dangerous_operation re cfg content = true ∧
      (check_for_confirmation_prompt re cfg s w (Except.ok content)).1
        = none) := by
  constructor
  · intro hoff
    unfold is_dangerous_operation
    simp [hoff]
  · intro hflag hman
    have hany : cfg.safety_controls.require_manual_approval.any
        (fun p => re.searchCI p content) = true := by
      rcases hman with ⟨p, hp, hm⟩
      exact List.any_eq_true.mpr ⟨p, hp, hm⟩
    have hd : is_dangerous_operation re cfg content = true := by
      unfold is_dangerous_operation
      rcases hdang : cfg.safety_controls.dangerous_patterns.any
          (fun p => re.searchCI p content) with _ | _
      · simp [hflag, hdang, hany]
      · simp [hflag, hdang]
    exact ⟨hd, check_none_of_dangerous re cfg s w content hd⟩

/-- Configuration with the skip flag set and the same manual-approval
pattern, for the witness of the amended claim C4. -/
def wcfgMan : AutoResponderConfig :=
  { enabled := true
    check_interval := 2
    response_delay := 1/2
    log_responses := true
    granular_controls := [("general_confirmations",
      { enabled := true
        description := "General yes/no confirmations"
        patterns := ["proceed"]
        response := "1" })]
    safety_controls :=
      { skip_dangerous_operations := true
        dangerous_patterns := ["delete"]
        require_manual_approval := ["production"] } }

/-- Witness for the amended claim C4: with the flag unset nothing is
scanned, and with the flag set the manual-approval hit suppresses the
response even though an enabled category pattern matches. -/
theorem manual_approval_gated_by_flag_witness :
    is_dangerous_operation reLit wcfgNoSkip "Deploy to production, proceed"
      = false ∧
    (is_dangerous_operation reLit wcfgMan "Deploy to production, proceed"
      = true ∧
     (check_for_confirmation_prompt reLit wcfgMan "dev" 0
        (Except.ok "Deploy to production, proceed")).1 = none) :=
  ⟨(manual_approval_gated_by_flag reLit wcfgNoSkip
      "Deploy to production, proceed" "dev" 0).1 rfl,
   (manual_approval_gated_by_flag reLit wcfgMan
      "Deploy to production, proceed" "dev" 0).2 rfl
     ⟨"production", by decide, by decide⟩⟩

/-- Step function for the tick counterexample: processing window 2 raises. -/
def stepBoom : Int → Except String Unit :=
  fun w => if w = 2 then Except.error "boom" else Except.ok ()

/-- Counterexample to claim C5: the try block of monitor_session wraps the
whole per-tick for loop, so an exception raised while processing window 2
aborts the tick — window 3, enumerated in the same tick, is never captured,
classified or responded to. -/
theorem window_failure_aborts_tick_cx :
    monitor_tick stepBoom [1, 2, 3] = ([1], some "boom") ∧
    (3 : Int) ∈ [(1 : Int), 2, 3] ∧
    (3 : Int) ∉ (monitor_tick stepBoom [1, 2, 3]).1 := by
  decide

/-- Claim C5 as amended: a failure while processing one window aborts the
remainder of that tick — the windows processed are exactly the longest
prefix of the enumeration on which the step succeeds — but the exception is
caught by the tick's handler, and the monitor loop always completes every
tick regardless of failures (a per-window failure never terminates the
loop). -/
theorem tick_aborts_loop_survives (step : Int → Except String Unit)
    (ws : List Int) (stepN : Nat → Int → Except String Unit)
    (windows : Nat → List Int) (n : Nat) :
    (monitor_tick step ws).1
      = ws.takeWhile (fun w => exceptIsOk (step w)) ∧
    (monitor_loop stepN windows n).length = n := by
  constructor
  · induction ws with
    | nil => rfl
    | cons w rest ih =>
      cases hs : step w with
      | ok u => simp [monitor_tick, hs, List.takeWhile_cons, exceptIsOk, ih]
      | error msg =>
        simp [monitor_tick, hs, List.takeWhile_cons, exceptIsOk]
  · induction n with
    | zero => rfl
    | succ k ih => simp [monitor_loop, ih]

/-- Configuration whose only category is disabled; used to exhibit the
mid-tick visibility of enable_category. -/
def wcfgDisabledGen : AutoResponderConfig :=
  { enabled := true
    check_interval := 2
    response_delay := 1/2
    log_responses := true
    granular_controls := [("general_confirmations",
      { enabled := false
        description := "General yes/no confirmations"
        patterns := ["proceed"]
        response := "1" })]
    safety_controls :=
      { skip_dangerous_operations := true
        dangerous_patterns := []
        require_manual_approval := [] } }

/-- Counterexample to claim C6: an enable_category call landing between two
windows of the same tick is observed by the second window — the first window
is classified under the old configuration (category disabled, no prompt),
the second window of the same cycle already responds under the mutated
configuration.  A configuration change is thus visible mid-cycle, not only
to the next cycle. -/
theorem enable_category_visible_mid_tick_cx :
    tick_with_concurrent_enable reLit wcfgDisabledGen "general_confirmations"
        "dev" (Except.ok "Proceed with step one")
        (Except.ok "Proceed with step two")
      = (none,
         some { response := "1"
                category := "general_confirmations"
                description := "General yes/no confirmations"
                pattern_matched := "proceed" }) := by
  decide

/-- Helper: setting the enabled flag of the entries keyed cat rewrites the
looked-up value for cat accordingly. -/
theorem lookup_setEnabled_same (cat : String)
    (l : List (String × CategoryConfig)) :
    List.lookup cat (l.map (fun nc =>
        if nc.1 = cat then (nc.1, { nc.2 with enabled := true }) else nc))
      = (List.lookup cat l).map (fun cc => { cc with enabled := true }) := by
  induction l with
  | nil => rfl
  | cons nc rest ih =>
    rcases nc with ⟨k, v⟩
    by_cases hk : k = cat
    · subst hk
      simp [List.lookup_cons, ih]
    · have hk3 : (cat == k) = false := beq_false_of_ne (Ne.symm hk)
      simp [List.lookup_cons, hk, hk3, ih]

/-- Helper: setting the enabled flag of the entries keyed cat leaves lookups
of every other key unchanged. -/
theorem lookup_setEnabled_other (cat other : String) (hne : other ≠ cat)
    (l : List (String × CategoryConfig)) :
    List.lookup other (l.map (fun nc =>
        if nc.1 = cat then (nc.1, { nc.2 with enabled := true }) else nc))
      = List.lookup other l := by
  induction l with
  | nil => rfl
  | cons nc rest ih =>
    rcases nc with ⟨k, v⟩
    by_cases hk : k = cat
    · subst hk
      have hok : (other == k) = false := beq_false_of_ne hne
      simp [List.lookup_cons, hok, ih]
    · rcases hok : other == k with _ | _ <;>
        simp [List.lookup_cons, hk, hok, ih]

/-- Claim C6 as amended: enable_category updates the live shared
configuration in place — it sets exactly the named category's enabled flag,
leaves every other category and the remaining configuration fields
untouched, and returns True — and because the monitor re-reads that shared
configuration for every window, the change is visible immediately,
including to the remaining windows of a cycle already in progress. -/
theorem enable_category_in_place_update (cfg : AutoResponderConfig)
    (cat : String) (cc : CategoryConfig)
    (h : List.lookup cat cfg.granular_controls = some cc) :
    (enable_category cfg cat).2 = true ∧
    List.lookup cat (enable_category cfg cat).1.granular_controls
      = some { cc with enabled := true } ∧
    (∀ other, other ≠ cat →
      List.lookup other (enable_category cfg cat).1.granular_controls
        = List.lookup other cfg.granular_controls) ∧
    (enable_category cfg cat).1.safety_controls = cfg.safety_controls ∧
    (enable_category cfg cat).1.log_responses = cfg.log_responses := by
  have hsome : (List.lookup cat cfg.granular_controls).isSome = true := by
    rw [h]
    rfl
  refine ⟨?_, ?_, ?_, ?_, ?_⟩
  · simp [enable_category, hsome]
  · simp only [enable_category, hsome, if_true]
    rw [lookup_setEnabled_same, h]
    rfl
  · intro other hne
    simp only [enable_category, hsome, if_true]
    exact lookup_setEnabled_other cat other hne cfg.granular_controls
  · simp [enable_category, hsome]
  · simp [enable_category, hsome]

/-- Witness for the amended claim C6 on the concrete configuration of the
counterexample. -/
theorem enable_category_in_place_update_witness :
    (enable_category wcfgDisabledGen "general_confirmations").2 = true ∧
    List.lookup "general_confirmations"
        (enable_category wcfgDisabledGen
          "general_confirmations").1.granular_controls
      = some { enabled := true
               description := "General yes/no confirmations"
               patterns := ["proceed"]
               response := "1" } ∧
    (∀ other, other ≠ "general_confirmations" →
      List.lookup other
          (enable_category wcfgDisabledGen
            "general_confirmations").1.granular_controls
        = List.lookup other wcfgDisabledGen.granular_controls) ∧
    (enable_category wcfgDisabledGen "general_confirmations").1.safety_controls
      = wcfgDisabledGen.safety_controls ∧
    (enable_category wcfgDisabledGen "general_confirmations").1.log_responses
      = wcfgDisabledGen.log_responses :=
  enable_category_in_place_update wcfgDisabledGen "general_confirmations"
    { enabled := false
      description := "General yes/no confirmations"
      patterns := ["proceed"]
      response := "1" } (by rfl)

/-- Log entry used in the audit-log theorems. -/
def e0 : LogEntry :=
  { session := "dev"
    window := 0
    response := "1"
    status := "Auto-approved"
    category := "general_confirmations"
    description := "General yes/no confirmations" }

/-- Helper: with logging enabled, a sequence of log_response appends grows
the response_log by exactly one record per append. -/
theorem append_all_length (es : List LogEntry) :
    ∀ log : List LogEntry,
      (append_all true log es).length = log.length + es.length := by
  induction es with
  | nil =>
    intro log
    simp [append_all]
  | cons e rest ih =>
    intro log
    have hstep : append_all true log (e :: rest)
        = append_all true (log ++ [e]) rest := by
      simp [append_all, log_response]
    rw [hstep, ih]
    simp
    omega

/-- Counterexample to claim C7: the in-memory response_log has no retention
cap at all — no bound K holds after arbitrary append sequences, and after
twenty appends all twenty records are present with the oldest record still
at the head (nothing is ever evicted). -/
theorem response_log_unbounded_cx :
    (¬ ∃ K : Nat, ∀ es : List LogEntry,
      (append_all true [] es).length ≤ K) ∧
    (append_all true [] (List.replicate 20 e0)).length = 20 ∧
    (append_all true [] (List.replicate 20 e0)).head? = some e0 := by
  refine ⟨?_, ?_, ?_⟩
  · rintro ⟨K, hK⟩
    have h1 := hK (List.replicate (K + 1) e0)
    rw [append_all_length] at h1
    simp at h1
  · rw [append_all_length]
    simp
  · decide

/-- Claim C7 as amended: log_response appends unconditionally whenever the
log_responses flag is set (and is a no-op when it is unset); the in-memory
log grows by one record per logged response without bound and never evicts,
and only the recent_responses view exposed by get_status is bounded, to the
last ten records. -/
theorem log_append_unbounded_status_tail (log : List LogEntry) (e : LogEntry)
    (es : List LogEntry) :
    log_response true log e = log ++ [e] ∧
    log_response false log e = log ∧
    (append_all true log es).length = log.length + es.length ∧
    (recent_responses log).length ≤ 10 := by
  refine ⟨rfl, rfl, append_all_length es log, ?_⟩
  simp only [recent_responses, List.length_drop]
  omega

/-- Claim C8: preset resolution is deterministic and idempotent —
get_preset always routes through the single pure generator
generate_preset_config (the registry entry for a known name calls the
legacy function, which calls the generator with the same name), and the
resolved configuration's per-category enabled flag is exactly the
membership test of the preset name in that category's enabled_in set, with
the pattern list, response and description copied unchanged from the shared
GRANULAR_CONTROLS catalog; two resolutions of the same name therefore
yield identical configurations. -/
theorem preset_resolution_membership (name : String) (info : PresetInfo)
    (h : List.lookup name PRESET_INFO = some info) :
    get_preset name = generate_preset_config name ∧
    ∃ cfg, generate_preset_config name = Except.ok cfg ∧
      cfg.enabled = true ∧
      cfg.check_interval = info.check_interval ∧
      cfg.response_delay = info.response_delay ∧
      cfg.safety_controls = SAFETY_CONTROLS ∧
      ∀ cname cc, (cname, cc) ∈ cfg.granular_controls →
        ∃ gc, (cname, gc) ∈ GRANULAR_CONTROLS ∧
          cc.enabled = gc.enabled_in.contains name ∧
          cc.patterns = gc.patterns ∧ cc.response = gc.response ∧
          cc.description = gc.description := by
  constructor
  · unfold get_preset
    split <;> rfl
  · have hg : generate_preset_config name = Except.ok
        { enabled := true
          check_interval := info.check_interval
          response_delay := info.response_delay
          log_responses := true
          granular_controls := GRANULAR_CONTROLS.map (fun nc =>
            (nc.1,
             { enabled := nc.2.enabled_in.contains name
               description := nc.2.description
               patterns := nc.2.patterns
               response := nc.2.response }))
          safety_controls := SAFETY_CONTROLS } := by
      unfold generate_preset_config
      rw [h]
    refine ⟨_, hg, rfl, rfl, rfl, rfl, ?_⟩
    intro cname cc hmem
    simp only [List.mem_map] at hmem
    rcases hmem with ⟨nc, hnc, heq⟩
    have h1 : cname = nc.1 := by
      have h2 := congrArg Prod.fst heq
      simpa using h2.symm
    have h2 : cc = { enabled := nc.2.enabled_in.contains name
                     description := nc.2.description
                     patterns := nc.2.patterns
                     response := nc.2.response } := by
      have h3 := congrArg Prod.snd heq
      simpa using h3.symm
    subst h1
    subst h2
    exact ⟨nc.2, by simpa using hnc, rfl, rfl, rfl, rfl⟩

/-- Witness for claim C8 at the conservative preset. -/
theorem preset_resolution_membership_witness :
    List.lookup "conservative" PRESET_INFO
      = some { check_interval := 3, response_delay := 1 } ∧
    (get_preset "conservative" = generate_preset_config "conservative" ∧
     ∃ cfg, generate_preset_config "conservative" = Except.ok cfg ∧
       cfg.enabled = true ∧
       cfg.check_interval = (3 : Rat) ∧
       cfg.response_delay = (1 : Rat) ∧
       cfg.safety_controls = SAFETY_CONTROLS ∧
       ∀ cname cc, (cname, cc) ∈ cfg.granular_controls →
         ∃ gc, (cname, gc) ∈ GRANULAR_CONTROLS ∧
           cc.enabled = gc.enabled_in.contains "conservative" ∧
           cc.patterns = gc.patterns ∧ cc.response = gc.response ∧
           cc.description = gc.description) :=
  ⟨by rfl,
   preset_resolution_membership "conservative"
     { check_interval := 3, response_delay := 1 } (by rfl)⟩

/-- Claim C9: the enumeration and capture wrappers are total at the public
interface — a CalledProcessError from tmux makes get_session_windows return
the empty list (indistinguishable from a session whose enumeration output
is empty) and capture_window_content return the empty string, and an empty
capture short-circuits check_for_confirmation_prompt to None with no log
entry, so the per-window body performs no adapter send and no category or
safety pattern is ever evaluated on it. -/
theorem adapter_failure_totality :
    get_session_windows (Except.error ()) = Except.ok [] ∧
    get_session_windows (Except.error ()) = get_session_windows (Except.ok "") ∧
    capture_window_content (Except.error ()) = "" ∧
    ∀ (re : ReEngine) (cfg : AutoResponderConfig) (s : String) (w : Int),
      check_for_confirmation_prompt re cfg s w (Except.error ())
        = (none, []) ∧
      ∀ scriptExists adapterOk : Bool,
        process_window re cfg s w (Except.error ()) scriptExists adapterOk
          = { prompt := none, sendCalls := 0, logs := [] } := by
  refine ⟨rfl, ?_, rfl, ?_⟩
  · rfl
  · intro re cfg s w
    exact ⟨rfl, fun _ _ => rfl⟩

/-- Claim C10: every recognized preset resolves to a configuration with the
auto-responder globally enabled, while the git_operations category —
declared with an empty enabled_in list in the shared catalog — is disabled
in the resolved configuration, so no built-in preset auto-confirms git
commit, push, branch or merge prompts. -/
theorem presets_enable_global_disable_git (name : String)
    (h : (List.lookup name PRESET_INFO).isSome = true) :
    ∃ cfg, generate_preset_config name = Except.ok cfg ∧
      cfg.enabled = true ∧
      List.lookup "git_operations" cfg.granular_controls
        = some { enabled := false
                 description := "Git commits, pushes, and repository operations"
                 patterns := ["Commit changes\\?", "Push to repository\\?",
                   "Create branch\\?", "Merge branch\\?"]
                 response := "1" } ∧
      ∃ gc, List.lookup "git_operations" GRANULAR_CONTROLS = some gc ∧
        gc.enabled_in = [] := by
  rcases hinfo : List.lookup name PRESET_INFO with _ | info
  · rw [hinfo] at h
    simp at h
  · have hg : generate_preset_config name = Except.ok
        { enabled := true
          check_interval := info.check_interval
          response_delay := info.response_delay
          log_responses := true
          granular_controls := GRANULAR_CONTROLS.map (fun nc =>
            (nc.1,
             { enabled := nc.2.enabled_in.contains name
               description := nc.2.description
               patterns := nc.2.patterns
               response := nc.2.response }))
          safety_controls := SAFETY_CONTROLS } := by
      unfold generate_preset_config
      rw [hinfo]
    refine ⟨_, hg, rfl, ?_, ⟨_, rfl, rfl⟩⟩
    rfl

/-- Witness for claim C10 at the pm_orchestrator preset. -/
theorem presets_enable_global_disable_git_witness :
    (List.lookup "pm_orchestrator" PRESET_INFO).isSome = true ∧
    ∃ cfg, generate_preset_config "pm_orchestrator" = Except.ok cfg ∧
      cfg.enabled = true ∧
      List.lookup "git_operations" cfg.granular_controls
        = some { enabled := false
                 description := "Git commits, pushes, and repository operations"
                 patterns := ["Commit changes\\?", "Push to repository\\?",
                   "Create branch\\?", "Merge branch\\?"]
                 response := "1" } ∧
      ∃ gc, List.lookup "git_operations" GRANULAR_CONTROLS = some gc ∧
        gc.enabled_in = [] :=
  ⟨by rfl, presets_enable_global_disable_git "pm_orchestrator" (by rfl)⟩
